import Mathlib

/-
  Verification development for the stock-analysis repository.

  Shallow embedding of `simple_stock_analysis.py` (quote retrieval with the
  regional ".NS" fallback, derived trailing returns, snapshot formatting,
  news search) and of the sequential multi-agent runner wrapper in
  `financial_companion_crew.py`.  External collaborators (the market-data
  source, the web-search source, the hosted model and the orchestration
  runner) are parameters of the embedding: each Python function is modelled
  as a Lean function over an explicit environment describing the responses
  of those collaborators.  Python exceptions are modelled with Except /
  Option; prices are modelled with rationals (numpy float division by zero
  yields inf, a populated value, not an exception, so threshold shapes are
  preserved).
-/

/-- A Python value stored in the quote snapshot dictionary: either a number
or a string (the "N/A" sentinel or a text field). -/
inductive PyVal where
  | num (q : ℚ)
  | str (s : String)
deriving DecidableEq, Repr

/-- Two-decimal rendering of a rational; models the `f"{x:.2f}"` formatting
applied to the derived returns (exact digit behaviour of Python float
formatting is immaterial to the claims; what matters is that the result is
a decimal string, never the "N/A" sentinel). -/
def fmt2 (q : ℚ) : String :=
  let n : Int := round (q * 100)
  let a := n.natAbs
  String.mk ((if n < 0 then ['-'] else []) ++ (Nat.repr (a / 100)).data ++
    '.' :: (if a % 100 < 10 then '0' :: (Nat.repr (a % 100)).data else (Nat.repr (a % 100)).data))

/-- String rendering of a snapshot value, as Python str() inside the
formatting template. -/
def pyStr : PyVal → String
  | .num q => fmt2 q
  | .str s => s

/-- The `stock.info` dictionary: an association list of string keys to
values. -/
def Info : Type := List (String × PyVal)

/-- Python dict.get with a default. -/
def Info.get (i : Info) (k : String) (d : PyVal) : PyVal :=
  match List.lookup k i with
  | some v => v
  | none => d

/-- The `stock_data` dictionary built by `try_fetch_stock`.  The fixed keys
are always set; the three trailing-return keys are set only inside the
`if not hist_data.empty` block, hence Option (none models an absent key). -/
structure StockData where
  symbol : String
  company_name : PyVal
  current_price : PyVal
  market_cap : PyVal
  pe_ratio : PyVal
  debt_to_equity : PyVal
  roe : PyVal
  profit_margin : PyVal
  revenue_growth : PyVal
  price_to_book : PyVal
  dividend_yield : PyVal
  beta : PyVal
  sector : PyVal
  industry : PyVal
  week52_high : PyVal
  week52_low : PyVal
  volume : PyVal
  avg_volume : PyVal
  ret_1m : Option String
  ret_3m : Option String
  ret_1y : Option String
deriving DecidableEq, Repr

/-- Response of the market-data source for one ticker: either the fetch
raises (network error, unknown symbol, source error signal), or it yields
the info dictionary and the (up to three years of) daily closes. -/
inductive FetchResp where
  | raises (msg : String)
  | ok (info : Info) (hist : List ℚ)

/-- The market-data source as a black box: ticker to response. -/
def FetchEnv : Type := String → FetchResp

/-- Embedding of the inner `try_fetch_stock` closure: Sum.inl models the
`(stock_data, True)` success pair, Sum.inr the `(error string, False)`
pair produced by the catch-all except. -/
def try_fetch_stock (env : FetchEnv) (ticker_symbol : String) : Sum StockData String :=
  match env ticker_symbol with
  | .raises msg => .inr ("Error fetching " ++ ticker_symbol ++ ": " ++ msg)
  | .ok info hist =>
    -- current_price = hist['Close'][-1] if not hist_data.empty else info.get('currentPrice','N/A')
    let current_price : PyVal :=
      match hist.getLast? with
      | some c => PyVal.num c
      | none => info.get "currentPrice" (PyVal.str "N/A")
    let n := hist.length
    -- the returns block runs only when the history is non-empty; a negative
    -- index -k is position n - k; numpy division never raises here
    let rets : Option String × Option String × Option String :=
      match hist.getLast? with
      | none => (none, none, none)
      | some c =>
        (some (if 30 ≤ n then fmt2 ((c - hist.getD (n - 30) 0) / hist.getD (n - 30) 0 * 100) else "N/A"),
         some (if 90 ≤ n then fmt2 ((c - hist.getD (n - 90) 0) / hist.getD (n - 90) 0 * 100) else "N/A"),
         some (if 252 ≤ n then fmt2 ((c - hist.getD (n - 252) 0) / hist.getD (n - 252) 0 * 100) else "N/A"))
    .inl
      { symbol := ticker_symbol
        company_name := info.get "longName" (PyVal.str "N/A")
        current_price := current_price
        market_cap := info.get "marketCap" (PyVal.str "N/A")
        pe_ratio := info.get "forwardPE" (info.get "trailingPE" (PyVal.str "N/A"))
        debt_to_equity := info.get "debtToEquity" (PyVal.str "N/A")
        roe := info.get "returnOnEquity" (PyVal.str "N/A")
        profit_margin := info.get "profitMargins" (PyVal.str "N/A")
        revenue_growth := info.get "revenueGrowth" (PyVal.str "N/A")
        price_to_book := info.get "priceToBook" (PyVal.str "N/A")
        dividend_yield := info.get "dividendYield" (PyVal.str "N/A")
        beta := info.get "beta" (PyVal.str "N/A")
        sector := info.get "sector" (PyVal.str "N/A")
        industry := info.get "industry" (PyVal.str "N/A")
        week52_high := info.get "fiftyTwoWeekHigh" (PyVal.str "N/A")
        week52_low := info.get "fiftyTwoWeekLow" (PyVal.str "N/A")
        volume := info.get "volume" (PyVal.str "N/A")
        avg_volume := info.get "averageVolume" (PyVal.str "N/A")
        ret_1m := rets.1
        ret_3m := rets.2.1
        ret_1y := rets.2.2 }

/-- The formatting template of `get_stock_data`.  The f-string evaluates
its placeholders in textual order; every fixed key exists, but the three
return keys exist only when they were set, so a missing return key raises
KeyError (modelled as Except.error). -/
def format_stock (data : StockData) : Except String String :=
  match data.ret_1m, data.ret_3m, data.ret_1y with
  | some r1, some r3, some ry =>
    .ok ("\nSTOCK DATA FOR " ++ data.symbol ++
      "\n===============================\nCompany: " ++ pyStr data.company_name ++
      "\nSector: " ++ pyStr data.sector ++ " | Industry: " ++ pyStr data.industry ++
      "\n\nCURRENT METRICS:\n- Current Price: $" ++ pyStr data.current_price ++
      "\n- Market Cap: " ++ pyStr data.market_cap ++
      "\n- P/E Ratio: " ++ pyStr data.pe_ratio ++
      "\n- Price to Book: " ++ pyStr data.price_to_book ++
      "\n- Beta: " ++ pyStr data.beta ++
      "\n\nFINANCIAL HEALTH:\n- Debt to Equity: " ++ pyStr data.debt_to_equity ++
      "\n- Return on Equity: " ++ pyStr data.roe ++
      "\n- Profit Margin: " ++ pyStr data.profit_margin ++
      "\n- Revenue Growth: " ++ pyStr data.revenue_growth ++
      "\n- Dividend Yield: " ++ pyStr data.dividend_yield ++
      "\n\nPERFORMANCE:\n- 52 Week High: $" ++ pyStr data.week52_high ++
      "\n- 52 Week Low: $" ++ pyStr data.week52_low ++
      "\n- 1 Month Return: " ++ r1 ++ "%" ++
      "\n- 3 Month Return: " ++ r3 ++ "%" ++
      "\n- 1 Year Return: " ++ ry ++ "%" ++
      "\n\nTRADING DATA:\n- Volume: " ++ pyStr data.volume ++
      "\n- Average Volume: " ++ pyStr data.avg_volume ++
      "\n        ")
  | none, _, _ => .error "KeyError: 1_month_return"
  | _, none, _ => .error "KeyError: 3_month_return"
  | _, _, none => .error "KeyError: 1_year_return"

/-- Python str.endswith. -/
def pyEndsWith (s suffix : String) : Bool :=
  List.isSuffixOf suffix.data s.data

/-- Embedding of `get_stock_data`: try the original symbol, on failure (and
only when the symbol does not already end in ".NS") retry once with ".NS"
appended; format on success, otherwise return the last error string.
Except.error models an exception escaping the function (no handler wraps
the formatting). -/
def get_stock_data (env : FetchEnv) (symbol : String) : Except String String :=
  match try_fetch_stock env symbol with
  | .inl data => format_stock data
  | .inr err1 =>
    if pyEndsWith symbol ".NS" then .ok err1
    else
      match try_fetch_stock env (symbol ++ ".NS") with
      | .inl data => format_stock data
      | .inr err2 => .ok err2

/-- The tickers passed to `try_fetch_stock` by one `get_stock_data` call,
in order; mirrors the control flow of the fallback. -/
def get_stock_data_attempts (env : FetchEnv) (symbol : String) : List String :=
  match try_fetch_stock env symbol with
  | .inl _ => [symbol]
  | .inr _ =>
    if pyEndsWith symbol ".NS" then [symbol]
    else [symbol, symbol ++ ".NS"]

/-- Concrete market-data environment: the bare ticker "TCS" fails, the
suffixed "TCS.NS" succeeds. -/
def envC1 : FetchEnv := fun t =>
  if t = "TCS.NS" then FetchResp.ok [("longName", PyVal.str "Tata Consultancy Services")] []
  else FetchResp.raises "HTTPError"

/-- Concrete market-data environment: the info lookup succeeds but the
three-year price history comes back empty. -/
def envEmptyHist : FetchEnv := fun t =>
  if t = "ACME" then FetchResp.ok [("longName", PyVal.str "Acme Corp")] []
  else FetchResp.raises "not found"

/-- Concrete market-data environment: a history series of 45 daily closes. -/
def envC3 : FetchEnv := fun _ =>
  FetchResp.ok [] (List.replicate 45 (10 : ℚ))

-- ### News retrieval (`search_stock_news`)

/-- Python str.split with a one-character separator: always returns at
least one piece; a separator occurrence opens a new piece. -/
def pySplitChar (c : Char) : List Char → List (List Char)
  | [] => [[]]
  | x :: xs =>
    if x = c then [] :: pySplitChar c xs
    else
      match pySplitChar c xs with
      | [] => [[x]]
      | p :: ps => (x :: p) :: ps

/-- String-level wrapper of `pySplitChar`. -/
def pySplit (c : Char) (s : String) : List String :=
  (pySplitChar c s.data).map String.mk

/-- Python s[:n]. -/
def pyTake (n : Nat) (s : String) : String :=
  String.mk (s.data.take n)

/-- One raw result of the web-search source; each field is retrieved with
`result.get(key, '')`, so missing keys are Option. -/
structure SearchResult where
  title : Option String
  body : Option String
  href : Option String
deriving DecidableEq, Repr

/-- One entry of `all_news`. -/
structure NewsItem where
  title : String
  body : String
  url : String
  source : String
deriving DecidableEq, Repr

/-- Building one `news_item` dictionary.  The source label is
`result.get('href','').split('/')[2]` when the href is truthy (non-empty)
and "Unknown" otherwise; indexing `[2]` raises IndexError (none) when the
split has fewer than three pieces. -/
def mkNewsItem (r : SearchResult) : Option NewsItem :=
  let href := r.href.getD ""
  if href = "" then
    some { title := r.title.getD "", body := r.body.getD "", url := href, source := "Unknown" }
  else
    match (pySplit '/' href).get? 2 with
    | some seg => some { title := r.title.getD "", body := r.body.getD "", url := href, source := seg }
    | none => none

/-- The per-result loop of one query: items are appended one at a time;
the first IndexError aborts the loop (the per-query except catches it),
keeping the items already appended. -/
def buildNewsItems : List SearchResult → List NewsItem
  | [] => []
  | r :: rs =>
    match mkNewsItem r with
    | some it => it :: buildNewsItems rs
    | none => []

/-- Response of the web-search source for one `ddgs.text(query, ...)`
call: either the call raises, or it yields a result list. -/
inductive DdgsResp where
  | raises (msg : String)
  | ok (results : List SearchResult)

/-- The web-search source as a black box: entering the DDGS context can
itself raise (`ddgsFail`), and each text query (with its max_results
argument) yields a response. -/
structure NewsEnv where
  ddgsFail : Option String
  text : String → Nat → DdgsResp

/-- The three fixed queries of `search_stock_news`, in order. -/
def newsQueries (company_name symbol : String) : List String :=
  [company_name ++ " stock news",
   symbol ++ " earnings news",
   company_name ++ " financial news"]

/-- The contribution of one query to `all_news`: a raising query is
skipped by the per-query except (`continue`), and the loop is called with
max_results = 3. -/
def queryItems (env : NewsEnv) (query : String) : List NewsItem :=
  match env.text query 3 with
  | .raises _ => []
  | .ok results => buildNewsItems results

/-- The aggregated `all_news` list, in query order. -/
def all_news (env : NewsEnv) (company_name symbol : String) : List NewsItem :=
  ((newsQueries company_name symbol).map (queryItems env)).flatten

/-- One rendered entry of the news list (enumerate starts at 1); the body
is truncated to 200 characters. -/
def renderNewsItem (i : Nat) (news : NewsItem) : String :=
  "\n" ++ Nat.repr i ++ ". " ++ news.title ++
    "\n   Source: " ++ news.source ++
    "\n   Summary: " ++ pyTake 200 news.body ++ "..." ++
    "\n   URL: " ++ news.url ++ "\n   \n"

/-- The rendering loop over the displayed items. -/
def renderNewsList : Nat → List NewsItem → String
  | _, [] => ""
  | i, it :: rest => renderNewsItem i it ++ renderNewsList (i + 1) rest

/-- Embedding of `search_stock_news`: an error entering the search context
is caught by the outer except and reported as an error description; with
results, at most the first 8 aggregated items are rendered; with none, an
explicit no-news marker naming company and symbol is returned. -/
def search_stock_news (env : NewsEnv) (company_name symbol : String) : String :=
  match env.ddgsFail with
  | some msg => "Error searching for news: " ++ msg
  | none =>
    let news := all_news env company_name symbol
    if news ≠ [] then
      ("\nRECENT NEWS FOR " ++ company_name ++ " (" ++ symbol ++
        ")\n==========================================\n") ++
        renderNewsList 1 (news.take 8)
    else
      "No recent news found for " ++ company_name ++ " (" ++ symbol ++ ")"

/-- A well-formed sample search result. -/
def goodResult : SearchResult :=
  { title := some "Quarterly results beat estimates"
    body := some "The company reported record revenue this quarter."
    href := some "https://example.com/page" }

/-- A search result whose href has fewer than two slash separators, so the
host indexing raises. -/
def badHrefResult : SearchResult :=
  { title := some "Odd link", body := some "text", href := some "a/b" }

/-- Concrete search environment: every query succeeds, answering with as
many copies of the sample result as max_results allows. -/
def envC4 : NewsEnv :=
  { ddgsFail := none
    text := fun _ n => DdgsResp.ok (List.take n [goodResult, goodResult, goodResult]) }

/-- Concrete search environment: the second (earnings) query raises, the
other two succeed with one result each. -/
def envC5 : NewsEnv :=
  { ddgsFail := none
    text := fun q _ =>
      if q = "ACM earnings news" then DdgsResp.raises "rate limited"
      else DdgsResp.ok [goodResult] }

/-- Concrete search environment: every query succeeds but with no
results. -/
def envC7 : NewsEnv :=
  { ddgsFail := none
    text := fun _ _ => DdgsResp.ok [] }

/-- Concrete search environment: one query whose second result has a bad
href. -/
def envC10 : NewsEnv :=
  { ddgsFail := none
    text := fun _ _ => DdgsResp.ok [goodResult, badHrefResult, goodResult] }

-- ### Ordered-substring predicate for the layout contract

/-- The anchors appear in the string, in the given order, each after the
end of the previous anchor. -/
def ContainsInOrder : List String → String → Prop
  | [], _ => True
  | p :: ps, s => ∃ a b, s = a ++ p ++ b ∧ ContainsInOrder ps b

/-- A quote snapshot with every field present (used to instantiate the
layout claim). -/
def dFull : StockData :=
  { symbol := "NVDA"
    company_name := PyVal.str "NVIDIA Corporation"
    current_price := PyVal.num 500
    market_cap := PyVal.num 1230000
    pe_ratio := PyVal.num 40
    debt_to_equity := PyVal.num (1/2)
    roe := PyVal.num (1/4)
    profit_margin := PyVal.num (1/3)
    revenue_growth := PyVal.num (1/5)
    price_to_book := PyVal.num 30
    dividend_yield := PyVal.num (1/100)
    beta := PyVal.num 2
    sector := PyVal.str "Technology"
    industry := PyVal.str "Semiconductors"
    week52_high := PyVal.num 550
    week52_low := PyVal.num 200
    volume := PyVal.num 1000000
    avg_volume := PyVal.num 900000
    ret_1m := some "5.00"
    ret_3m := some "12.00"
    ret_1y := some "80.00" }

-- ### Prompt assembly and single-shot analysis (`analyze_stock_simple`)

/-- Python str.split with a multi-character separator; fuel-based
recursion (fuel = input length suffices, the fuel-0 case is
unreachable). -/
def pySplitStrAux (sep : List Char) : Nat → List Char → List (List Char)
  | _, [] => [[]]
  | 0, l => [l]
  | fuel + 1, x :: xs =>
    if List.isPrefixOf sep (x :: xs) then
      [] :: pySplitStrAux sep fuel (List.drop (sep.length - 1) xs)
    else
      match pySplitStrAux sep fuel xs with
      | [] => [[x]]
      | p :: ps => (x :: p) :: ps

/-- String-level wrapper of `pySplitStrAux`. -/
def pySplitOnStr (sep s : String) : List String :=
  (pySplitStrAux sep.data s.data.length s.data).map String.mk

/-- Python `sub in s`. -/
def pyContains (sub s : String) : Bool :=
  decide (sub.data <:+: s.data)

/-- The company-name extraction of `analyze_stock_simple`: when the
stock-data string contains "Company:", take the text after "Company: " up
to the end of the line; the inner except turns an IndexError (split too
short) back into the raw ticker; otherwise keep the raw ticker. -/
def company_name_for (stock_symbol stock_data : String) : String :=
  if pyContains "Company:" stock_data then
    match (pySplitOnStr "Company: " stock_data).get? 1 with
    | some second => (pySplitOnStr "\n" second).headD ""
    | none => stock_symbol
  else stock_symbol

/-- The fixed analysis prompt template with its three holes (ticker,
stock-data block, news block). -/
def analysis_prompt (stock_symbol stock_data news_data : String) : String :=
  "\nYou are a senior financial analyst. Please provide a comprehensive stock analysis for " ++
    stock_symbol ++ " based on the following data:\n\nSTOCK DATA:\n" ++ stock_data ++
    "\n\nNEWS DATA:\n" ++ news_data ++
    "\n\nPlease provide:\n\n1. **EXECUTIVE SUMMARY** (2-3 sentences about the company and current situation)\n\n2. **FINANCIAL HEALTH ASSESSMENT** \n   - Analyze key metrics (P/E, debt-to-equity, ROE, profit margins, etc.)\n   - Compare to industry standards where possible\n   - Rate financial health: Excellent/Good/Fair/Poor\n\n3. **VALUATION ANALYSIS**\n   - Is the stock overvalued, fairly valued, or undervalued?\n   - Key valuation metrics analysis\n   \n4. **RECENT NEWS IMPACT**\n   - How recent news affects the stock outlook\n   - Market sentiment analysis\n\n5. **INVESTMENT RECOMMENDATION**\n   - Clear decision: **BUY** / **HOLD** / **SELL**\n   - Confidence level: High/Medium/Low\n   - 3-5 key reasons supporting your recommendation\n   - Main risks to consider\n   - Suggested time horizon (short/medium/long term)\n\n6. **BOTTOM LINE** (1-2 sentences in plain English for beginner investors)\n\nMake your analysis clear, actionable, and accessible to both beginners and experienced investors. Be honest about uncertainties and risks.\n"

/-- The collaborators of `analyze_stock_simple`: the model constructor
can raise (`geminiFail`), the market-data and search sources are the
environments above, and one model invocation either returns the response
content or raises. -/
structure AnalyzeEnv where
  geminiFail : Option String
  fetch : FetchEnv
  news : NewsEnv
  invoke : String → Except String String

/-- Embedding of `analyze_stock_simple`: result text paired with the
trace of prompts passed to the model (to state how often it is invoked).
The outer except converts every raise into an error-description return
value. -/
def analyze_stock_simple_run (env : AnalyzeEnv) (stock_symbol : String) :
    String × List String :=
  match env.geminiFail with
  | some msg => ("Error during analysis: " ++ msg, [])
  | none =>
    match get_stock_data env.fetch stock_symbol with
    | .error e => ("Error during analysis: " ++ e, [])
    | .ok stock_data =>
      let company_name := company_name_for stock_symbol stock_data
      let news_data := search_stock_news env.news company_name stock_symbol
      let prompt := analysis_prompt stock_symbol stock_data news_data
      match env.invoke prompt with
      | .ok content => (content, [prompt])
      | .error e => ("Error during analysis: " ++ e, [prompt])

/-- The returned analysis text. -/
def analyze_stock_simple (env : AnalyzeEnv) (stock_symbol : String) : String :=
  (analyze_stock_simple_run env stock_symbol).1

/-- The prompts passed to the hosted model during one call. -/
def analyze_llm_calls (env : AnalyzeEnv) (stock_symbol : String) : List String :=
  (analyze_stock_simple_run env stock_symbol).2

/-- Concrete analyze environment: every market-data fetch raises (so the
quote step yields an error-description string), the search source finds
nothing, the model invocation succeeds. -/
def envC9 : AnalyzeEnv :=
  { geminiFail := none
    fetch := fun _ => FetchResp.raises "no data"
    news := envC7
    invoke := fun _ => Except.ok "ANALYSIS TEXT" }

-- ### Multi-agent pipeline runner (Flow A)

/-- The five agent roles created by `_create_agents`, in insertion
order. -/
def crew_roles : List String :=
  ["Transaction Data Validator and Processor",
   "Fraud Detection and Risk Assessment Analyst",
   "Spending Pattern Analyst and Financial Wellness Expert",
   "Financial Product Recommendation Specialist",
   "Financial Insights Report Generator"]

/-- The role executing each of the five tasks of `_create_tasks`, in task
order (task i is assigned to agent i); the task descriptions themselves
are opaque prompt text, declared out of scope by the spec. -/
def crew_task_agents : List String := crew_roles

/-- Modelled from the spec: the third-party sequential orchestration
runner (`Crew(..., process=Process.sequential).kickoff`) is library code,
not part of this repository.  Spec section 4.4 describes it: tasks run
strictly in listed order, each task output is appended to the shared
context of later tasks, and a failing step aborts the run.  A step
environment gives each (position, context) pair its outcome. -/
def CrewStepEnv : Type := Nat → String → Except String String

/-- Modelled from the spec: sequential execution with abort-on-failure;
returns the list of task outputs or the first error. -/
def run_sequential (env : CrewStepEnv) : Nat → List String → String → Except String (List String)
  | _, [], _ => .ok []
  | i, _t :: ts, ctx =>
    match env i ctx with
    | .error e => .error e
    | .ok out =>
      match run_sequential env (i + 1) ts (ctx ++ out) with
      | .error e => .error e
      | .ok outs => .ok (out :: outs)

/-- The tasks actually started by the runner, in order: everything up to
and including the first failing step. -/
def executed_steps (env : CrewStepEnv) : Nat → List String → String → List String
  | _, [], _ => []
  | i, t :: ts, ctx =>
    match env i ctx with
    | .error _ => [t]
    | .ok out => t :: executed_steps env (i + 1) ts (ctx ++ out)

/-- The dictionary returned by `process_customer_data` (the fixed
bookkeeping fields `analysis_date` and `transaction_file` are input
echoes and carry no logic). -/
structure CrewRunResult where
  status : String
  error_message : Option String
  results : Option (List String)
  crew_execution : Option String
deriving DecidableEq, Repr

/-- Embedding of `process_customer_data`: kickoff inside try/except; on
success a status-success dictionary with the results, on any exception a
status-error dictionary carrying only the error message. -/
def process_customer_data (env : CrewStepEnv) : CrewRunResult :=
  match run_sequential env 0 crew_task_agents "" with
  | .ok outs =>
    { status := "success", error_message := none
      results := some outs, crew_execution := some "completed" }
  | .error e =>
    { status := "error", error_message := some e
      results := none, crew_execution := none }

/-- Concrete step environment: the third step fails, the others
succeed. -/
def envC8 : CrewStepEnv := fun i _ =>
  if i = 2 then Except.error "LLM rate limit" else Except.ok "step output"

-- ### Generic string facts used by the proofs

theorem string_mk_append (l m : List Char) : String.mk l ++ String.mk m = String.mk (l ++ m) := rfl

theorem string_data_append (a b : String) : (a ++ b).data = a.data ++ b.data := by
  cases a; cases b; rfl

theorem string_eq_of_data {a b : String} (h : a.data = b.data) : a = b := by
  cases a; cases b; exact congrArg String.mk h

theorem str_append_assoc (a b c : String) : (a ++ b) ++ c = a ++ (b ++ c) := by
  apply string_eq_of_data
  simp [string_data_append]

/-- fmt2 always renders a decimal string containing a dot, never the
"N/A" sentinel. -/
theorem fmt2_ne_NA (q : ℚ) : fmt2 q ≠ "N/A" := by
  intro h
  have hdot : '.' ∈ (fmt2 q).data := by
    unfold fmt2
    simp
  rw [h] at hdot
  simp at hdot

theorem try_fetch_stock_symbol (env : FetchEnv) (t : String) (d : StockData)
    (h : try_fetch_stock env t = .inl d) : d.symbol = t := by
  unfold try_fetch_stock at h
  cases henv : env t with
  | raises msg => rw [henv] at h; simp at h
  | ok info hist =>
    rw [henv] at h
    simp at h
    rw [← h]

-- ### C1: regional ".NS" fallback

/-- C1: for a ticker not ending in ".NS" whose primary fetch fails,
`get_stock_data` makes exactly one retry with ".NS" appended (the attempt
list is exactly the primary then the suffixed ticker, so no further
retries); a ticker already ending in ".NS" is never retried; and when the
retry succeeds the returned snapshot is tagged with the suffixed symbol
and is the one that gets formatted. -/
theorem get_stock_data_regional_fallback (env : FetchEnv) (symbol : String) :
    (pyEndsWith symbol ".NS" = true →
      get_stock_data_attempts env symbol = [symbol]) ∧
    (pyEndsWith symbol ".NS" = false →
      ∀ e, try_fetch_stock env symbol = Sum.inr e →
        get_stock_data_attempts env symbol = [symbol, symbol ++ ".NS"] ∧
        ∀ d, try_fetch_stock env (symbol ++ ".NS") = Sum.inl d →
          d.symbol = symbol ++ ".NS" ∧ get_stock_data env symbol = format_stock d) := by
  constructor
  · intro hNS
    unfold get_stock_data_attempts
    cases h : try_fetch_stock env symbol with
    | inl d => rfl
    | inr e => simp [hNS]
  · intro hNS e he
    refine ⟨?_, ?_⟩
    · unfold get_stock_data_attempts
      rw [he]
      simp [hNS]
    · intro d hd
      refine ⟨try_fetch_stock_symbol env _ d hd, ?_⟩
      unfold get_stock_data
      rw [he]
      simp [hNS, hd]

/-- C1 witness: the spec's own example, ticker "TCS" failing on the
primary lookup and succeeding on "TCS.NS". -/
theorem get_stock_data_regional_fallback_witness :
    pyEndsWith "TCS" ".NS" = false ∧
    get_stock_data_attempts envC1 "TCS" = ["TCS", "TCS.NS"] ∧
    ∃ d, try_fetch_stock envC1 "TCS.NS" = Sum.inl d ∧ d.symbol = "TCS.NS" := by
  have h := (get_stock_data_regional_fallback envC1 "TCS").2 (by decide)
    "Error fetching TCS: HTTPError" (by rfl)
  refine ⟨by decide, h.1, ?_⟩
  obtain ⟨d, hd⟩ : ∃ d, try_fetch_stock envC1 "TCS.NS" = Sum.inl d := ⟨_, rfl⟩
  exact ⟨d, hd, (h.2 d hd).1⟩

-- ### C2: totality of get_stock_data (refuted: empty-history KeyError)

/-- C2 (code bug): when the info lookup succeeds but the price history is
empty, `try_fetch_stock` never sets the three return keys, so the
formatting f-string raises KeyError instead of returning an error string
or a snapshot with "N/A" fields.  The claim (and spec section 4.1) says
the call must always return a string and degrade missing history to
"N/A"; the code raises. -/
theorem get_stock_data_keyerror_on_empty_history :
    get_stock_data envEmptyHist "ACME" = Except.error "KeyError: 1_month_return" := by rfl

-- ### C3: return-percentage thresholds

/-- C3 counterexample: on an empty history series (0 observations, fewer
than every threshold) the snapshot's 1-month return field is absent
(`none`), not marked "N/A" as the claim states for every series. -/
theorem try_fetch_stock_empty_history_counterexample :
    (Sum.getLeft? (try_fetch_stock envEmptyHist "ACME")).map StockData.ret_1m =
      some none ∧
    (some none : Option (Option String)) ≠ some (some "N/A") := by
  exact ⟨rfl, by decide⟩

/-- C3 (amended to non-empty series): for every NON-empty historical
closing-price series, the trailing 1-month, 3-month and 1-year return
fields are populated (a decimal string, not "N/A") exactly when the
series has at least 30, 90 and 252 observations respectively, and are
marked "N/A" otherwise. -/
theorem try_fetch_stock_return_thresholds (env : FetchEnv) (t : String)
    (info : Info) (hist : List ℚ)
    (henv : env t = FetchResp.ok info hist) (hne : hist ≠ []) :
    ∃ d, try_fetch_stock env t = Sum.inl d ∧
      ((30 ≤ hist.length → ∃ s, d.ret_1m = some s ∧ s ≠ "N/A") ∧
        (hist.length < 30 → d.ret_1m = some "N/A")) ∧
      ((90 ≤ hist.length → ∃ s, d.ret_3m = some s ∧ s ≠ "N/A") ∧
        (hist.length < 90 → d.ret_3m = some "N/A")) ∧
      ((252 ≤ hist.length → ∃ s, d.ret_1y = some s ∧ s ≠ "N/A") ∧
        (hist.length < 252 → d.ret_1y = some "N/A")) := by
  obtain ⟨c, hgl⟩ : ∃ c, hist.getLast? = some c := by
    cases hgl : hist.getLast? with
    | some c => exact ⟨c, rfl⟩
    | none => exact absurd (List.getLast?_eq_none_iff.mp hgl) hne
  unfold try_fetch_stock
  rw [henv]
  refine ⟨_, rfl, ?_, ?_, ?_⟩
  · constructor
    · intro h30
      simp [hgl, h30]
      first
      | exact ⟨_, rfl, fmt2_ne_NA _⟩
      | exact fmt2_ne_NA _
    · intro h30
      simp [hgl, Nat.not_le.mpr h30]
  · constructor
    · intro h90
      simp [hgl, h90]
      first
      | exact ⟨_, rfl, fmt2_ne_NA _⟩
      | exact fmt2_ne_NA _
    · intro h90
      simp [hgl, Nat.not_le.mpr h90]
  · constructor
    · intro h252
      simp [hgl, h252]
      first
      | exact ⟨_, rfl, fmt2_ne_NA _⟩
      | exact fmt2_ne_NA _
    · intro h252
      simp [hgl, Nat.not_le.mpr h252]

/-- C3 witness: the spec's example, a series of 45 daily closes yields a
populated 1-month return and "N/A" for the 3-month and 1-year returns. -/
theorem try_fetch_stock_return_thresholds_witness :
    ∃ d, try_fetch_stock envC3 "XYZ" = Sum.inl d ∧
      (∃ s, d.ret_1m = some s ∧ s ≠ "N/A") ∧
      d.ret_3m = some "N/A" ∧ d.ret_1y = some "N/A" := by
  obtain ⟨d, hd, h30, h90, h252⟩ :=
    try_fetch_stock_return_thresholds envC3 "XYZ" [] (List.replicate 45 (10 : ℚ))
      rfl (by simp)
  exact ⟨d, hd, h30.1 (by simp), h90.2 (by simp), h252.2 (by simp)⟩

-- ### News helper lemmas

theorem pySplitChar_ne_nil (c : Char) (l : List Char) : pySplitChar c l ≠ [] := by
  induction l with
  | nil => simp [pySplitChar]
  | cons x xs ih =>
    unfold pySplitChar
    by_cases hx : x = c
    · simp [hx]
    · simp only [hx, if_false]
      cases h : pySplitChar c xs with
      | nil => simp
      | cons p ps => simp

theorem pySplitChar_length (c : Char) (l : List Char) :
    (pySplitChar c l).length = l.count c + 1 := by
  induction l with
  | nil => simp [pySplitChar]
  | cons x xs ih =>
    unfold pySplitChar
    by_cases hx : x = c
    · subst hx
      simp [List.count_cons, ih]
      try omega
    · cases h : pySplitChar c xs with
      | nil => exact absurd h (pySplitChar_ne_nil c xs)
      | cons p ps =>
        rw [h] at ih
        simp [hx, h, List.count_cons]
        simp at ih
        try omega

theorem pySplit_length (c : Char) (s : String) :
    (pySplit c s).length = s.data.count c + 1 := by
  simp [pySplit, pySplitChar_length]

theorem buildNewsItems_length_le (rs : List SearchResult) :
    (buildNewsItems rs).length ≤ rs.length := by
  induction rs with
  | nil => simp [buildNewsItems]
  | cons r rs ih =>
    unfold buildNewsItems
    cases mkNewsItem r with
    | some it => simp; omega
    | none => simp

theorem buildNewsItems_append_of_bad (pre : List SearchResult) (r : SearchResult)
    (post : List SearchResult) (hpre : ∀ x ∈ pre, (mkNewsItem x).isSome)
    (hr : mkNewsItem r = none) :
    buildNewsItems (pre ++ r :: post) = buildNewsItems pre := by
  induction pre with
  | nil => simp [buildNewsItems, hr]
  | cons p ps ih =>
    have hp := hpre p (by simp)
    obtain ⟨it, hit⟩ := Option.isSome_iff_exists.mp hp
    have ihs := ih (fun x hx => hpre x (by simp [hx]))
    simp only [List.cons_append]
    unfold buildNewsItems
    rw [hit]
    rw [show buildNewsItems (ps ++ r :: post) = buildNewsItems ps from ihs]

-- ### C4: per-query and display caps

/-- C4: `search_stock_news` requests each query with max_results = 3 (the
call in `queryItems`), so under the search-source contract that at most
max_results results come back, each query contributes at most 3 items,
the aggregate holds at most 9, the displayed list is the aggregate
truncated to at most 8 items, and each rendered item truncates its body
to at most 200 characters. -/
theorem search_stock_news_caps (env : NewsEnv) (c s : String)
    (hcap : ∀ q n rs, env.text q n = DdgsResp.ok rs → rs.length ≤ n) :
    (∀ q ∈ newsQueries c s, (queryItems env q).length ≤ 3) ∧
    (all_news env c s).length ≤ 9 ∧
    ((all_news env c s).take 8).length ≤ 8 ∧
    (env.ddgsFail = none → all_news env c s ≠ [] →
      search_stock_news env c s =
        ("\nRECENT NEWS FOR " ++ c ++ " (" ++ s ++
          ")\n==========================================\n") ++
          renderNewsList 1 ((all_news env c s).take 8)) ∧
    (∀ i it, ∃ x y, renderNewsItem i it = x ++ pyTake 200 it.body ++ y ∧
      (pyTake 200 it.body).data.length ≤ 200) := by
  have hq : ∀ q, (queryItems env q).length ≤ 3 := by
    intro q
    unfold queryItems
    cases h : env.text q 3 with
    | raises msg => simp
    | ok rs => exact le_trans (buildNewsItems_length_le rs) (hcap q 3 rs h)
  refine ⟨fun q _ => hq q, ?_, ?_, ?_, ?_⟩
  · have h1 := hq (c ++ " stock news")
    have h2 := hq (s ++ " earnings news")
    have h3 := hq (c ++ " financial news")
    simp [all_news, newsQueries]
    omega
  · simp [List.length_take]
  · intro hfail hne
    unfold search_stock_news
    rw [hfail]
    simp [hne]
  · intro i it
    refine ⟨"\n" ++ Nat.repr i ++ ". " ++ it.title ++ "\n   Source: " ++ it.source ++
      "\n   Summary: ", "..." ++ "\n   URL: " ++ it.url ++ "\n   \n", ?_, ?_⟩
    · simp [renderNewsItem, str_append_assoc]
    · simp [pyTake]

/-- C4 witness: a concrete environment answering every query with 3
results. -/
theorem search_stock_news_caps_witness :
    (∀ q ∈ newsQueries "Acme" "ACM", (queryItems envC4 q).length ≤ 3) ∧
    (all_news envC4 "Acme" "ACM").length ≤ 9 ∧
    ((all_news envC4 "Acme" "ACM").take 8).length ≤ 8 := by
  have h := search_stock_news_caps envC4 "Acme" "ACM"
    (fun q n rs hrs => by
      cases hrs
      simp [List.length_take])
  exact ⟨h.1, h.2.1, h.2.2.1⟩

-- ### C5: partial-failure tolerance across the three queries

/-- C5: a single raising query is skipped (`continue`): whichever one of
the three queries raises, the aggregated `all_news` list is exactly the
concatenation, in order, of the items collected from the other two. -/
theorem search_stock_news_partial_failure (env : NewsEnv) (c s : String) :
    (∀ e, env.text (c ++ " stock news") 3 = DdgsResp.raises e →
      all_news env c s =
        queryItems env (s ++ " earnings news") ++ queryItems env (c ++ " financial news")) ∧
    (∀ e, env.text (s ++ " earnings news") 3 = DdgsResp.raises e →
      all_news env c s =
        queryItems env (c ++ " stock news") ++ queryItems env (c ++ " financial news")) ∧
    (∀ e, env.text (c ++ " financial news") 3 = DdgsResp.raises e →
      all_news env c s =
        queryItems env (c ++ " stock news") ++ queryItems env (s ++ " earnings news")) := by
  refine ⟨?_, ?_, ?_⟩ <;>
    · intro e h
      simp [all_news, newsQueries, queryItems, h]

/-- C5 witness: the earnings query raises, yet the items of the stock and
financial queries are still aggregated (and are non-empty). -/
theorem search_stock_news_partial_failure_witness :
    all_news envC5 "Acme" "ACM" =
      queryItems envC5 ("Acme" ++ " stock news") ++ queryItems envC5 ("Acme" ++ " financial news") ∧
    queryItems envC5 ("Acme" ++ " stock news") ≠ [] := by
  refine ⟨(search_stock_news_partial_failure envC5 "Acme" "ACM").2.1 "rate limited" rfl, ?_⟩
  decide

-- ### C7: no-news marker distinct from the error string

/-- C7: when the search context opens fine and no results were collected
across all queries, the function returns the explicit no-news marker
naming company and symbol, and that marker differs from every
error-description string the except branch can produce. -/
theorem search_stock_news_no_results_marker (env : NewsEnv) (c s : String)
    (h1 : env.ddgsFail = none) (h2 : all_news env c s = []) :
    search_stock_news env c s = "No recent news found for " ++ c ++ " (" ++ s ++ ")" ∧
    ∀ msg, search_stock_news env c s ≠ "Error searching for news: " ++ msg := by
  have hmain : search_stock_news env c s =
      "No recent news found for " ++ c ++ " (" ++ s ++ ")" := by
    unfold search_stock_news
    rw [h1]
    simp [h2]
  refine ⟨hmain, ?_⟩
  intro msg heq
  rw [hmain] at heq
  have hdata := congrArg String.data heq
  simp only [string_data_append] at hdata
  simp at hdata

/-- C7 witness: an environment whose queries all succeed with zero
results. -/
theorem search_stock_news_no_results_marker_witness :
    search_stock_news envC7 "Acme" "ACM" = "No recent news found for Acme (ACM)" ∧
    search_stock_news envC7 "Acme" "ACM" ≠ "Error searching for news: timeout" := by
  have h := search_stock_news_no_results_marker envC7 "Acme" "ACM" rfl rfl
  exact ⟨h.1, h.2 "timeout"⟩

-- ### C10: source-label derivation and per-query IndexError behaviour

/-- C10: for a result whose href is a non-empty string with at least two
slash separators, the derived source label is the third slash-separated
segment of the URL; an empty or missing href yields "Unknown"; a
non-empty href with fewer than two slashes makes the `[2]` indexing raise
(none), and inside a query that raise drops the remaining results of the
query while keeping the items already collected (the function itself is
total, so it still returns a string). -/
theorem news_source_derivation :
    (∀ (r : SearchResult) (u : String), r.href = some u → u ≠ "" →
      2 ≤ u.data.count '/' →
        ∃ it, mkNewsItem r = some it ∧ (pySplit '/' u).get? 2 = some it.source) ∧
    (∀ r : SearchResult, r.href.getD "" = "" →
      ∃ it, mkNewsItem r = some it ∧ it.source = "Unknown") ∧
    (∀ (r : SearchResult) (u : String), r.href = some u → u ≠ "" →
      u.data.count '/' < 2 → mkNewsItem r = none) ∧
    (∀ (env : NewsEnv) (q : String) (pre : List SearchResult) (r : SearchResult)
      (post : List SearchResult),
      env.text q 3 = DdgsResp.ok (pre ++ r :: post) →
      (∀ x ∈ pre, (mkNewsItem x).isSome) → mkNewsItem r = none →
      queryItems env q = buildNewsItems pre) := by
  refine ⟨?_, ?_, ?_, ?_⟩
  · intro r u hu hne hcount
    have hlen : 2 < (pySplit '/' u).length := by
      rw [pySplit_length]
      omega
    obtain ⟨seg, hseg⟩ : ∃ seg, (pySplit '/' u).get? 2 = some seg :=
      ⟨(pySplit '/' u).get ⟨2, hlen⟩, List.get?_eq_get hlen⟩
    refine ⟨{ title := r.title.getD "", body := r.body.getD "", url := u, source := seg }, ?_, ?_⟩
    · simp only [mkNewsItem, hu, Option.getD_some]
      rw [if_neg hne, hseg]
    · exact hseg
  · intro r h
    refine ⟨NewsItem.mk (r.title.getD "") (r.body.getD "") (r.href.getD "") "Unknown", ?_, rfl⟩
    simp [mkNewsItem, h]
  · intro r u hu hne hcount
    have hlen : (pySplit '/' u).length ≤ 2 := by
      rw [pySplit_length]
      omega
    simp only [mkNewsItem, hu, Option.getD_some]
    rw [if_neg hne, List.get?_eq_none.mpr hlen]
  · intro env q pre r post htext hpre hr
    unfold queryItems
    rw [htext]
    exact buildNewsItems_append_of_bad pre r post hpre hr

/-- C10 witness: a good https URL, a missing href, a 1-slash href, and a
query list in which the bad result drops only its own tail. -/
theorem news_source_derivation_witness :
    (∃ it, mkNewsItem goodResult = some it ∧
      (pySplit '/' "https://example.com/page").get? 2 = some it.source) ∧
    (pySplit '/' "https://example.com/page").get? 2 = some "example.com" ∧
    (∃ it, mkNewsItem (SearchResult.mk (some "t") (some "b") none) = some it ∧
      it.source = "Unknown") ∧
    mkNewsItem badHrefResult = none ∧
    queryItems envC10 "whatever" = buildNewsItems [goodResult] := by
  refine ⟨?_, by decide, ?_, ?_, ?_⟩
  · exact news_source_derivation.1 goodResult "https://example.com/page" rfl
      (by decide) (by decide)
  · exact news_source_derivation.2.1 (SearchResult.mk (some "t") (some "b") none) rfl
  · exact news_source_derivation.2.2.1 badHrefResult "a/b" rfl (by decide) (by decide)
  · exact news_source_derivation.2.2.2 envC10 "whatever" [goodResult] badHrefResult
      [goodResult] rfl (by decide) (by decide)

-- ### C6: layout contract of the formatted snapshot

theorem cio_nil (s : String) : ContainsInOrder [] s := trivial

theorem cio_here (p : String) (ps : List String) (a rest : String)
    (h : ContainsInOrder ps rest) : ContainsInOrder (p :: ps) (a ++ (p ++ rest)) :=
  ⟨a, rest, (str_append_assoc a p rest).symm, h⟩

/-- C6: for a snapshot with all fields present the rendered block
contains, in order, the company identity line, the CURRENT METRICS,
FINANCIAL HEALTH, PERFORMANCE and TRADING DATA section headers, with the
dollar prefix on the price fields and the percent suffix directly after
each return field. -/
theorem format_stock_sections_in_order (d : StockData) (r1 r3 ry : String)
    (h1 : d.ret_1m = some r1) (h3 : d.ret_3m = some r3) (hy : d.ret_1y = some ry) :
    ∃ out, format_stock d = Except.ok out ∧
      ContainsInOrder ["Company: ", "CURRENT METRICS:", "- Current Price: $",
        "FINANCIAL HEALTH:", "PERFORMANCE:", "- 52 Week High: $", "- 52 Week Low: $",
        "- 1 Month Return: " ++ r1 ++ "%", "- 3 Month Return: " ++ r3 ++ "%",
        "- 1 Year Return: " ++ ry ++ "%", "TRADING DATA:"] out := by
  refine ⟨("\nSTOCK DATA FOR " ++ d.symbol ++ "\n===============================\n") ++
      ("Company: " ++
      ((pyStr d.company_name ++ "\nSector: " ++ pyStr d.sector ++ " | Industry: " ++ pyStr d.industry ++ "\n\n") ++
      ("CURRENT METRICS:" ++
      ("\n" ++
      ("- Current Price: $" ++
      ((pyStr d.current_price ++ "\n- Market Cap: " ++ pyStr d.market_cap ++ "\n- P/E Ratio: " ++ pyStr d.pe_ratio ++ "\n- Price to Book: " ++ pyStr d.price_to_book ++ "\n- Beta: " ++ pyStr d.beta ++ "\n\n") ++
      ("FINANCIAL HEALTH:" ++
      (("\n- Debt to Equity: " ++ pyStr d.debt_to_equity ++ "\n- Return on Equity: " ++ pyStr d.roe ++ "\n- Profit Margin: " ++ pyStr d.profit_margin ++ "\n- Revenue Growth: " ++ pyStr d.revenue_growth ++ "\n- Dividend Yield: " ++ pyStr d.dividend_yield ++ "\n\n") ++
      ("PERFORMANCE:" ++
      ("\n" ++
      ("- 52 Week High: $" ++
      ((pyStr d.week52_high ++ "\n") ++
      ("- 52 Week Low: $" ++
      ((pyStr d.week52_low ++ "\n") ++
      (("- 1 Month Return: " ++ r1 ++ "%") ++
      ("\n" ++
      (("- 3 Month Return: " ++ r3 ++ "%") ++
      ("\n" ++
      (("- 1 Year Return: " ++ ry ++ "%") ++
      ("\n\n" ++
      ("TRADING DATA:" ++
      (("\n- Volume: " ++ pyStr d.volume ++ "\n- Average Volume: " ++ pyStr d.avg_volume ++ "\n        "))))))))))))))))))))))), ?_, ?_⟩
  · simp only [format_stock, h1, h3, hy]
    apply congrArg
    rw [show ("\n===============================\nCompany: " : String) =
        "\n===============================\n" ++ "Company: " from rfl,
      show ("\n\nCURRENT METRICS:\n- Current Price: $" : String) =
        "\n\n" ++ "CURRENT METRICS:" ++ "\n" ++ "- Current Price: $" from rfl,
      show ("\n\nFINANCIAL HEALTH:\n- Debt to Equity: " : String) =
        "\n\n" ++ "FINANCIAL HEALTH:" ++ "\n- Debt to Equity: " from rfl,
      show ("\n\nPERFORMANCE:\n- 52 Week High: $" : String) =
        "\n\n" ++ "PERFORMANCE:" ++ "\n" ++ "- 52 Week High: $" from rfl,
      show ("\n- 52 Week Low: $" : String) = "\n" ++ "- 52 Week Low: $" from rfl,
      show ("\n- 1 Month Return: " : String) = "\n" ++ "- 1 Month Return: " from rfl,
      show ("\n- 3 Month Return: " : String) = "\n" ++ "- 3 Month Return: " from rfl,
      show ("\n- 1 Year Return: " : String) = "\n" ++ "- 1 Year Return: " from rfl,
      show ("\n\nTRADING DATA:\n- Volume: " : String) =
        "\n\n" ++ "TRADING DATA:" ++ "\n- Volume: " from rfl]
    simp only [str_append_assoc]
  · exact cio_here _ _ _ _ (cio_here _ _ _ _ (cio_here _ _ _ _ (cio_here _ _ _ _
      (cio_here _ _ _ _ (cio_here _ _ _ _ (cio_here _ _ _ _ (cio_here _ _ _ _
      (cio_here _ _ _ _ (cio_here _ _ _ _ (cio_here _ _ _ _ (cio_nil _)))))))))))

/-- C6 witness: the fully populated sample snapshot. -/
theorem format_stock_sections_in_order_witness :
    ∃ out, format_stock dFull = Except.ok out ∧
      ContainsInOrder ["Company: ", "CURRENT METRICS:", "- Current Price: $",
        "FINANCIAL HEALTH:", "PERFORMANCE:", "- 52 Week High: $", "- 52 Week Low: $",
        "- 1 Month Return: " ++ "5.00" ++ "%", "- 3 Month Return: " ++ "12.00" ++ "%",
        "- 1 Year Return: " ++ "80.00" ++ "%", "TRADING DATA:"] out :=
  format_stock_sections_in_order dFull "5.00" "12.00" "80.00" rfl rfl rfl

-- ### C8: sequential multi-agent run with abort-on-failure

theorem executed_steps_prefix (env : CrewStepEnv) (ts : List String) :
    ∀ i ctx, executed_steps env i ts ctx <+: ts := by
  induction ts with
  | nil =>
    intro i ctx
    simp [executed_steps]
  | cons t ts ih =>
    intro i ctx
    unfold executed_steps
    cases h : env i ctx with
    | error e => exact ⟨ts, rfl⟩
    | ok out =>
      obtain ⟨r, hr⟩ := ih (i + 1) (ctx ++ out)
      exact ⟨r, by rw [List.cons_append, hr]⟩

theorem executed_steps_of_ok (env : CrewStepEnv) (ts : List String) :
    ∀ i ctx outs, run_sequential env i ts ctx = Except.ok outs →
      executed_steps env i ts ctx = ts := by
  induction ts with
  | nil =>
    intro i ctx outs h
    simp [executed_steps]
  | cons t ts ih =>
    intro i ctx outs h
    unfold run_sequential at h
    unfold executed_steps
    cases he : env i ctx with
    | error e =>
      rw [he] at h
      simp at h
    | ok out =>
      rw [he] at h
      cases hrec : run_sequential env (i + 1) ts (ctx ++ out) with
      | error e2 =>
        simp [hrec] at h
      | ok outs2 =>
        simp [ih (i + 1) (ctx ++ out) outs2 hrec]

/-- C8: the pipeline consists of five (role, task) pairs; the steps the
runner starts are always an in-order prefix of the task list (no
skipping, reordering or individual retry); a fully successful run
executes all five; and a failure in any step makes
`process_customer_data` return the single status-error dictionary with
one error message and no results payload. -/
theorem crew_sequential_abort (env : CrewStepEnv) :
    crew_task_agents.length = 5 ∧
    executed_steps env 0 crew_task_agents "" <+: crew_task_agents ∧
    (∀ outs, run_sequential env 0 crew_task_agents "" = Except.ok outs →
      executed_steps env 0 crew_task_agents "" = crew_task_agents) ∧
    (∀ e, run_sequential env 0 crew_task_agents "" = Except.error e →
      process_customer_data env = CrewRunResult.mk "error" (some e) none none) := by
  refine ⟨rfl, executed_steps_prefix env crew_task_agents 0 "",
    fun outs h => executed_steps_of_ok env crew_task_agents 0 "" outs h, ?_⟩
  intro e h
  unfold process_customer_data
  rw [h]

/-- C8 witness: with the third step failing, the whole run aborts into
the aggregated error dictionary, and the started steps are an in-order
prefix of the task list. -/
theorem crew_sequential_abort_witness :
    process_customer_data envC8 = CrewRunResult.mk "error" (some "LLM rate limit") none none ∧
    executed_steps envC8 0 crew_task_agents "" <+: crew_task_agents := by
  have h := crew_sequential_abort envC8
  exact ⟨h.2.2.2 "LLM rate limit" rfl, h.2.1⟩

-- ### C9: quote-error path of analyze_stock_simple

/-- C9: when the quote step returns an error-description string (one that
does not contain the "Company:" marker), the run does not abort: the
company name falls back to the raw ticker, the error text is embedded
verbatim in the analysis prompt, and exactly one prompt is passed to the
model. -/
theorem analyze_stock_error_path (env : AnalyzeEnv) (sym sd : String)
    (hg : env.geminiFail = none)
    (hsd : get_stock_data env.fetch sym = Except.ok sd)
    (hmark : pyContains "Company:" sd = false) :
    company_name_for sym sd = sym ∧
    (∀ t, pyContains "Company:" t = false → company_name_for sym t = sym) ∧
    (∃ a b, analysis_prompt sym sd (search_stock_news env.news sym sym) = a ++ sd ++ b) ∧
    analyze_llm_calls env sym =
      [analysis_prompt sym sd (search_stock_news env.news sym sym)] := by
  have hgen : ∀ t, pyContains "Company:" t = false → company_name_for sym t = sym := by
    intro t ht
    unfold company_name_for
    simp [ht]
  have hcompany := hgen sd hmark
  refine ⟨hcompany, hgen, ?_, ?_⟩
  · refine ⟨"\nYou are a senior financial analyst. Please provide a comprehensive stock analysis for " ++
      sym ++ " based on the following data:\n\nSTOCK DATA:\n",
      "\n\nNEWS DATA:\n" ++ search_stock_news env.news sym sym ++
      "\n\nPlease provide:\n\n1. **EXECUTIVE SUMMARY** (2-3 sentences about the company and current situation)\n\n2. **FINANCIAL HEALTH ASSESSMENT** \n   - Analyze key metrics (P/E, debt-to-equity, ROE, profit margins, etc.)\n   - Compare to industry standards where possible\n   - Rate financial health: Excellent/Good/Fair/Poor\n\n3. **VALUATION ANALYSIS**\n   - Is the stock overvalued, fairly valued, or undervalued?\n   - Key valuation metrics analysis\n   \n4. **RECENT NEWS IMPACT**\n   - How recent news affects the stock outlook\n   - Market sentiment analysis\n\n5. **INVESTMENT RECOMMENDATION**\n   - Clear decision: **BUY** / **HOLD** / **SELL**\n   - Confidence level: High/Medium/Low\n   - 3-5 key reasons supporting your recommendation\n   - Main risks to consider\n   - Suggested time horizon (short/medium/long term)\n\n6. **BOTTOM LINE** (1-2 sentences in plain English for beginner investors)\n\nMake your analysis clear, actionable, and accessible to both beginners and experienced investors. Be honest about uncertainties and risks.\n", ?_⟩
    simp [analysis_prompt, str_append_assoc]
  · unfold analyze_llm_calls analyze_stock_simple_run
    simp only [hg, hsd, hcompany]
    cases hinv : env.invoke (analysis_prompt sym sd (search_stock_news env.news sym sym)) with
    | ok content => simp [hinv]
    | error e => simp [hinv]

/-- C9 witness: every fetch raises, so the quote step yields the error
description for the suffixed retry; the prompt still goes to the model
exactly once. -/
theorem analyze_stock_error_path_witness :
    company_name_for "ACME" "Error fetching ACME.NS: no data" = "ACME" ∧
    analyze_llm_calls envC9 "ACME" =
      [analysis_prompt "ACME" "Error fetching ACME.NS: no data"
        (search_stock_news envC9.news "ACME" "ACME")] := by
  have h := analyze_stock_error_path envC9 "ACME" "Error fetching ACME.NS: no data"
    rfl rfl (by decide)
  exact ⟨h.1, h.2.2.2⟩
